import Mathlib

set_option maxRecDepth 8192

/-!
Shallow embedding of the core of the repository (two source files):

* `bot/utils/menu_renderer.py` — `update_menu_message` and `render_menu_content`,
  the menu rendering state machine with its layered fallback chain;
* `bot/handlers/user/subscription/payments_crypto.py` — `pay_crypto_callback_handler`,
  the payment-link flow.

The chat surface (aiogram) and the payment gateway are external collaborators.
Each surface call is modelled by an outcome chosen by an environment record:
`none` means the awaited call returned normally, `some e` means it raised, where
`e` distinguishes a `TelegramBadRequest` (carrying its reason string, the value
of Python `str(error)`) from any other exception.  Each embedded function
returns its Python return value together with a trace of the surface calls it
attempted (with the arguments that matter to the claims) and of the log records
it emitted (identified by the originating log statement).  The fact that the
Lean functions are total mirrors the source: every `await` on the chat surface
inside these functions sits under an `except` handler.
-/

namespace RemnaShop

/-- An exception raised by a chat-surface call: a structured
`TelegramBadRequest` with its reason string, or any other exception. -/
inductive SurfaceError where
  | badRequest (reason : String)
  | other (reason : String)
  deriving DecidableEq, Repr

/-- The slice of an aiogram `types.Message` the renderer inspects:
its id and whether `message.photo` is truthy. -/
structure Message where
  messageId : Nat
  hasPhoto : Bool
  deriving DecidableEq, Repr

/-- Log severities used by the two source files. -/
inductive LogSev where
  | debug
  | warning
  | error
  deriving DecidableEq, Repr

/-- One log statement of `menu_renderer.py`, identified by its site. -/
inductive LogEvent where
  | errNoMessage            -- line 29: update_menu_message called without a message
  | warnEditMedia           -- line 48: failed to edit media (TelegramBadRequest)
  | warnCaptionFallback     -- line 62: fallback caption edit failed (TelegramBadRequest)
  | errCaptionFallback      -- line 68: fallback caption edit failed (other exception)
  | errEditMedia            -- line 74: unexpected error while editing media
  | warnFileNotFound        -- line 80: menu image file not found
  | debugCaptionNotModified -- line 94: caption not modified (benign)
  | warnCaptionExisting     -- line 98: failed to edit existing caption
  | errCaptionExisting      -- line 102: unexpected error editing existing caption
  | debugTextNotModified    -- line 116: text not modified (benign)
  | errTextEdit             -- line 118: failed to edit menu text
  | errTextUnexpected       -- line 120: unexpected error while editing text
  | errNoTarget             -- line 148: render_menu_content without a target
  | warnSendPhoto           -- line 176: failed to send menu photo
  | errSendText             -- line 192: failed to send menu text
  deriving DecidableEq, Repr

/-- The severity each log statement uses in the source. -/
def LogEvent.sev : LogEvent → LogSev
  | .errNoMessage => .error
  | .warnEditMedia => .warning
  | .warnCaptionFallback => .warning
  | .errCaptionFallback => .error
  | .errEditMedia => .error
  | .warnFileNotFound => .warning
  | .debugCaptionNotModified => .debug
  | .warnCaptionExisting => .warning
  | .errCaptionExisting => .error
  | .debugTextNotModified => .debug
  | .errTextEdit => .error
  | .errTextUnexpected => .error
  | .errNoTarget => .error
  | .warnSendPhoto => .warning
  | .errSendText => .error

/-- One step of an execution trace: a chat-surface call (with the arguments
relevant to the claims: image path, text, link-preview flag, and an abstract id
for the reply markup) or an emitted log record. -/
inductive Event where
  | callEditMedia (imagePath : String) (caption : String) (markup : Nat)
  | callEditCaption (caption : String) (markup : Nat)
  | callEditText (text : String) (previewDisabled : Bool) (markup : Nat)
  | callSendPhoto (imagePath : String) (caption : String) (markup : Nat)
  | callSendText (text : String) (previewDisabled : Bool) (markup : Nat)
  | log (l : LogEvent)
  deriving DecidableEq, Repr

/-- Environment for `update_menu_message`: the filesystem (`Path.is_file`) and
the outcome of each surface call the function can make.  The caption edit can
be attempted twice in one call (once as the media-failure fallback, once on the
standalone existing-photo path), so it has two outcome slots, consumed in
order of invocation. -/
structure UpdateEnv where
  fileExists : String → Bool
  editMedia : Option SurfaceError
  editCaption1 : Option SurfaceError
  editCaption2 : Option SurfaceError
  editText : Option SurfaceError

/-- Python `sub in s` on strings: `strContains s sub` is true iff `sub` occurs
as a contiguous substring of `s`. -/
def startsWithChars : List Char → List Char → Bool
  | [], _ => true
  | _ :: _, [] => false
  | a :: as, b :: bs => a == b && startsWithChars as bs

/-- Substring occurrence on character lists. -/
def occursWithin (pat : List Char) : List Char → Bool
  | [] => pat.isEmpty
  | c :: rest => startsWithChars pat (c :: rest) || occursWithin pat rest

/-- Python `pat in s`. -/
def strContains (s pat : String) : Bool :=
  occursWithin pat.toList s.toList

/-- Python `s.lower()` (ASCII case folding suffices for the reason strings
compared here). -/
def strLower (s : String) : String :=
  (s.toList.map Char.toLower).asString

/-- Root directory for menu images (`MENU_IMAGES_ROOT`, menu_renderer.py line 11). -/
def MENU_IMAGES_ROOT : String := "/app/bot/static/images"

/-- `MENU_IMAGES_ROOT / image_filename`. -/
def imagePathOf (fn : String) : String := MENU_IMAGES_ROOT ++ "/" ++ fn

/-- Lines 107–121 of menu_renderer.py: the plain-text edit step.  `edit_text`
is attempted; success falls through to `return False`; a `TelegramBadRequest`
whose lowered reason contains "message is not modified" is logged at debug,
any other `TelegramBadRequest` at error, any other exception at error.  The
step always yields `False`. -/
def updateAfterCaption (text : String) (markup : Nat) (dlp : Bool)
    (env : UpdateEnv) : Bool × List Event :=
  match env.editText with
  | none => (false, [Event.callEditText text dlp markup])
  | some (SurfaceError.badRequest r) =>
    let lg := if strContains (strLower r) "message is not modified" then
        LogEvent.debugTextNotModified
      else
        LogEvent.errTextEdit
    (false, [Event.callEditText text dlp markup, Event.log lg])
  | some (SurfaceError.other _) =>
    (false, [Event.callEditText text dlp markup, Event.log LogEvent.errTextUnexpected])

/-- Lines 84–121 of menu_renderer.py: the standalone caption step followed by
the text step.  If `message.photo` is truthy, `edit_caption` is attempted with
outcome `capRes`; success returns `True`; a `TelegramBadRequest` whose lowered
reason contains "not modified" logs at debug, any other at warning, an
unexpected exception at error; in every failure case control falls to the
text step. -/
def updateFromPhotoCheck (msg : Message) (capRes : Option SurfaceError)
    (text : String) (markup : Nat) (dlp : Bool) (env : UpdateEnv) :
    Bool × List Event :=
  if msg.hasPhoto then
    match capRes with
    | none => (true, [Event.callEditCaption text markup])
    | some (SurfaceError.badRequest r) =>
      let lg := if strContains (strLower r) "not modified" then
          LogEvent.debugCaptionNotModified
        else
          LogEvent.warnCaptionExisting
      let t := updateAfterCaption text markup dlp env
      (t.1, [Event.callEditCaption text markup, Event.log lg] ++ t.2)
    | some (SurfaceError.other _) =>
      let t := updateAfterCaption text markup dlp env
      (t.1, [Event.callEditCaption text markup, Event.log LogEvent.errCaptionExisting] ++ t.2)
  else
    updateAfterCaption text markup dlp env

/-- Embedding of `update_menu_message` (menu_renderer.py lines 14–121).
Returns the Python boolean result and the trace of surface calls and logs.
Python truthiness of `image_filename` is modelled: `None` and the empty
string both skip the image block. -/
def update_menu_message (message : Option Message) (text : String)
    (image_filename : Option String) (markup : Nat) (dlp : Bool)
    (env : UpdateEnv) : Bool × List Event :=
  match message with
  | none => (false, [Event.log LogEvent.errNoMessage])
  | some msg =>
    match image_filename with
    | none => updateFromPhotoCheck msg env.editCaption1 text markup dlp env
    | some fn =>
      if fn = "" then
        -- Python: `if image_filename:` is false for the empty string
        updateFromPhotoCheck msg env.editCaption1 text markup dlp env
      else if env.fileExists (imagePathOf fn) then
        match env.editMedia with
        | none => (true, [Event.callEditMedia (imagePathOf fn) text markup])
        | some (SurfaceError.badRequest _) =>
          -- lines 47–72: warning, then the fallback caption edit if the
          -- message already has a photo
          if msg.hasPhoto then
            match env.editCaption1 with
            | none =>
              (true, [Event.callEditMedia (imagePathOf fn) text markup,
                      Event.log LogEvent.warnEditMedia,
                      Event.callEditCaption text markup])
            | some capErr =>
              let lg := match capErr with
                | SurfaceError.badRequest _ => LogEvent.warnCaptionFallback
                | SurfaceError.other _ => LogEvent.errCaptionFallback
              -- control falls out of the handler to line 84, where
              -- `message.photo` is checked again: a second caption attempt
              let t := updateFromPhotoCheck msg env.editCaption2 text markup dlp env
              (t.1, [Event.callEditMedia (imagePathOf fn) text markup,
                     Event.log LogEvent.warnEditMedia,
                     Event.callEditCaption text markup,
                     Event.log lg] ++ t.2)
          else
            let t := updateFromPhotoCheck msg env.editCaption1 text markup dlp env
            (t.1, [Event.callEditMedia (imagePathOf fn) text markup,
                   Event.log LogEvent.warnEditMedia] ++ t.2)
        | some (SurfaceError.other _) =>
          -- lines 73–78: unexpected error, logged; falls to line 84
          let t := updateFromPhotoCheck msg env.editCaption1 text markup dlp env
          (t.1, [Event.callEditMedia (imagePathOf fn) text markup,
                 Event.log LogEvent.errEditMedia] ++ t.2)
      else
        -- line 80: file not found, warning, image step skipped
        let t := updateFromPhotoCheck msg env.editCaption1 text markup dlp env
        (t.1, Event.log LogEvent.warnFileNotFound :: t.2)

/-- The inbound event of `render_menu_content`: a callback query (whose
`.message` may be absent) or a plain message. -/
inductive TEvent where
  | callbackQuery (message : Option Message)
  | message (msg : Message)
  deriving DecidableEq, Repr

/-- Environment for `render_menu_content`: the update-mode environment plus
outcomes for `send_photo` and `send_message`. -/
structure RenderEnv where
  update : UpdateEnv
  sendPhoto : Option SurfaceError
  sendText : Option SurfaceError

/-- Lines 180–193 of menu_renderer.py: the plain-text send.  `image_used` is
`False` on this path, and it is what the function returns whether or not the
send succeeds. -/
def sendTextStep (text : String) (markup : Nat) (dlp : Bool)
    (env : RenderEnv) : Bool × List Event :=
  match env.sendText with
  | none => (false, [Event.callSendText text dlp markup])
  | some _ =>
    (false, [Event.callSendText text dlp markup, Event.log LogEvent.errSendText])

/-- Embedding of `render_menu_content` (menu_renderer.py lines 124–193).
A callback query delegates to `update_menu_message` on its message (update
mode); a plain message is send mode: try `send_photo` when the image file
exists, fall back to exactly one `send_message`. -/
def render_menu_content (event : TEvent) (text : String)
    (image_filename : Option String) (markup : Nat) (dlp : Bool)
    (env : RenderEnv) : Bool × List Event :=
  match event with
  | TEvent.callbackQuery none => (false, [Event.log LogEvent.errNoTarget])
  | TEvent.callbackQuery (some msg) =>
    update_menu_message (some msg) text image_filename markup dlp env.update
  | TEvent.message _ =>
    match image_filename with
    | some fn =>
      if fn = "" then
        sendTextStep text markup dlp env
      else if env.update.fileExists (imagePathOf fn) then
        match env.sendPhoto with
        | none => (true, [Event.callSendPhoto (imagePathOf fn) text markup])
        | some _ =>
          let r := sendTextStep text markup dlp env
          (r.1, [Event.callSendPhoto (imagePathOf fn) text markup,
                 Event.log LogEvent.warnSendPhoto] ++ r.2)
      else
        -- send mode has no file-missing log; the photo block is skipped
        sendTextStep text markup dlp env
    | none => sendTextStep text markup dlp env

/-- Is a trace entry a chat-surface call (as opposed to a log record)? -/
def Event.isCall : Event → Bool
  | Event.log _ => false
  | _ => true

/-- The surface calls of a trace, logs filtered out. -/
def calls (evs : List Event) : List Event := evs.filter Event.isCall

/-- Number of caption-edit calls in a trace. -/
def countCaption : List Event → Nat
  | [] => 0
  | Event.callEditCaption _ _ :: rest => countCaption rest + 1
  | _ :: rest => countCaption rest

/-- Number of media-edit calls in a trace. -/
def countMedia : List Event → Nat
  | [] => 0
  | Event.callEditMedia _ _ _ :: rest => countMedia rest + 1
  | _ :: rest => countMedia rest

/-- Number of text-edit calls in a trace. -/
def countText : List Event → Nat
  | [] => 0
  | Event.callEditText _ _ _ :: rest => countText rest + 1
  | _ :: rest => countText rest

/-- Number of photo-send calls in a trace. -/
def countSendPhoto : List Event → Nat
  | [] => 0
  | Event.callSendPhoto _ _ _ :: rest => countSendPhoto rest + 1
  | _ :: rest => countSendPhoto rest

/-- Number of text-send calls in a trace. -/
def countSendText : List Event → Nat
  | [] => 0
  | Event.callSendText _ _ _ :: rest => countSendText rest + 1
  | _ :: rest => countSendText rest

/-- Every surface outcome in an update environment is a failure. -/
def UpdateEnv.allFail (env : UpdateEnv) : Prop :=
  env.editMedia.isSome = true ∧ env.editCaption1.isSome = true ∧
  env.editCaption2.isSome = true ∧ env.editText.isSome = true

/-- Every surface outcome in a render environment is a failure. -/
def RenderEnv.allFail (env : RenderEnv) : Prop :=
  env.update.allFail ∧ env.sendPhoto.isSome = true ∧ env.sendText.isSome = true

/-!
## The payment-link flow (`payments_crypto.py`)

Python floats are modelled as exact rationals extended with the two infinities
and nan; the decimal digit strings Python would print for them (`str`, the
percent-g format) are abstracted as the exact rational's decimal rendering —
no claim depends on those digits, only on which strings coincide.
-/

/-- A Python float value: a finite decimal `num / 10 ^ pow10` (exact — the
binary rounding of doubles is irrelevant to every claim), an infinity, or
nan.  The representation is not normalised ("3" parses to `finite 3 0`,
"3.0" to `finite 30 1`); the parse below is deterministic, so statements cite
the representation it yields, and `PyFloat.val` gives the denoted value. -/
inductive PyFloat where
  | finite (num : Int) (pow10 : Nat)
  | inf (positive : Bool)
  | nan
  deriving DecidableEq, Repr

/-- The rational value a finite float denotes (used in statements only). -/
def PyFloat.val : PyFloat → Option ℚ
  | .finite n p => some ((n : ℚ) / (10 : ℚ) ^ p)
  | _ => none

/-- `float.is_integer()`: true iff the denoted value is an integer. -/
def PyFloat.isInteger : PyFloat → Bool
  | .finite n p => n % ((10 : Int) ^ p) == 0
  | _ => false

/-- Is the value neither an infinity nor nan? -/
def PyFloat.isFinite : PyFloat → Bool
  | .finite _ _ => true
  | _ => false

/-- Exceptions the handler body can raise past its `except` clause. -/
inductive PyError where
  | valueError
  | overflowError
  deriving DecidableEq, Repr

/-- Python `int(x)` on a float: truncation toward zero for finite values,
`OverflowError` for infinities, `ValueError` for nan. -/
def pyIntOf : PyFloat → Except PyError Int
  | .finite n p => Except.ok (Int.tdiv n ((10 : Int) ^ p))
  | .inf _ => Except.error PyError.overflowError
  | .nan => Except.error PyError.valueError

/-- Leading digits of a character list: their value, how many there were, and
the rest. -/
def takeDigits (cs : List Char) : List Char × List Char :=
  (cs.takeWhile Char.isDigit, cs.dropWhile Char.isDigit)

/-- Value of a digit string. -/
def digitsToNat (ds : List Char) : Nat :=
  ds.foldl (fun a c => a * 10 + (c.toNat - 48)) 0

/-- Case-insensitive comparison of a character list against a lowercase word. -/
def lowerEq (cs : List Char) (s : String) : Bool :=
  cs.map Char.toLower == s.toList

/-- The mantissa `intpart.fracpart` as a numerator over `10 ^ fracpart.length`. -/
def mantissaNum (ip fp : List Char) : Nat :=
  digitsToNat ip * 10 ^ fp.length + digitsToNat fp

/-- The characters Python `float()` strips around a number.  Within ASCII
these are exactly 0x09–0x0D and the space (0x1C–0x1F are rejected); the NEL
and no-break-space bytes are included for fidelity beyond ASCII, the
remaining Unicode space characters are outside the ASCII scope of the
theorems that need totality. -/
def pyIsSpace (c : Char) : Bool :=
  (0x09 ≤ c.toNat && c.toNat ≤ 0x0D) || c.toNat == 0x20 ||
  c.toNat == 0x85 || c.toNat == 0xA0

/-- PEP 515 walk: every underscore must sit between two digits.  `prev` is
the character before the current position (a sentinel space initially). -/
def underscoresOkAux : Char → List Char → Bool
  | prev, '_' :: rest =>
    (prev.isDigit && (match rest with
      | nxt :: _ => nxt.isDigit
      | [] => false)) && underscoresOkAux '_' rest
  | _, c :: rest => underscoresOkAux c rest
  | _, [] => true

/-- PEP 515 digit-group underscores: validate that every underscore is
flanked by digits and return the characters with underscores removed;
`none` on a violation (CPython raises `ValueError`). -/
def stripUnderscores (cs : List Char) : Option (List Char) :=
  if underscoresOkAux ' ' cs then some (cs.filter fun c => !(c == '_'))
  else none

/-- Decimal-to-double extremes, for a magnitude `mag / 10 ^ p`: at most
`2 ^ (-1075)` rounds to zero, at least `2 ^ 1024 - 2 ^ 970` overflows to the
signed infinity (IEEE double, round half to even; the sign of a zero is not
tracked); magnitudes between the two are kept as exact decimals — the
binary rounding of in-range values is abstracted away, see `PyFloat`. -/
def roundDecimal (pos : Bool) (mag : Nat) (p : Nat) : PyFloat :=
  if mag * 2 ^ 1075 ≤ 10 ^ p then PyFloat.finite 0 0
  else if (2 ^ 1024 - 2 ^ 970) * 10 ^ p ≤ mag then PyFloat.inf pos
  else PyFloat.finite (if pos then (mag : Int) else -(mag : Int)) p

/-- Python `float(s)`: strip surrounding whitespace, validate and drop
PEP 515 digit-group underscores, then an optional sign followed by
`inf`/`infinity`/`nan` (case-insensitive) or a decimal number with optional
fraction and exponent; out-of-range magnitudes overflow to the signed
infinity or round to zero as CPython's conversion does.  (Non-ASCII decimal
digits, which CPython also maps to their ASCII values, are not modelled;
the theorem that quantifies over arbitrary payloads is scoped to ASCII.) -/
def pyFloat? (s : String) : Option PyFloat :=
  let ws := ((s.toList.dropWhile pyIsSpace).reverse.dropWhile
    pyIsSpace).reverse
  match stripUnderscores ws with
  | none => none
  | some cs =>
    match cs with
    | [] => none
    | c :: rest =>
      let (pos, body) :=
        if c == '-' then (false, rest)
        else if c == '+' then (true, rest)
        else (true, c :: rest)
      if lowerEq body "inf" || lowerEq body "infinity" then some (PyFloat.inf pos)
      else if lowerEq body "nan" then some PyFloat.nan
      else
        let (ip, r1) := takeDigits body
        let (fp, r2) :=
          match r1 with
          | '.' :: r => takeDigits r
          | _ => ([], r1)
        if ip.length == 0 && fp.length == 0 then none
        else
          match r2 with
          | [] => some (roundDecimal pos (mantissaNum ip fp) fp.length)
          | e :: r3 =>
            if e == 'e' || e == 'E' then
              let (esign, r4) :=
                match r3 with
                | '-' :: r => (false, r)
                | '+' :: r => (true, r)
                | _ => (true, r3)
              let (eds, r5) := takeDigits r4
              if eds.length == 0 || !r5.isEmpty then none
              else if esign then
                some (roundDecimal pos
                  (mantissaNum ip fp * 10 ^ digitsToNat eds) fp.length)
              else
                some (roundDecimal pos (mantissaNum ip fp)
                  (fp.length + digitsToNat eds))
            else none

/-- Split a character list at every occurrence of `sep`
(Python `s.split(sep)` for a one-character separator: the empty string
yields one empty group). -/
def splitChars (sep : Char) : List Char → List (List Char)
  | [] => [[]]
  | c :: rest =>
    if c == sep then [] :: splitChars sep rest
    else
      match splitChars sep rest with
      | [] => [[c]]
      | g :: gs => (c :: g) :: gs

/-- Split a character list at the first occurrence of `sep` only
(Python `s.split(sep, 1)`). -/
def splitOnceChars (sep : Char) : List Char → List (List Char)
  | [] => [[]]
  | c :: rest =>
    if c == sep then [[], rest]
    else
      match splitOnceChars sep rest with
      | [] => [[c]]
      | g :: gs => (c :: g) :: gs

/-- Python `s.split(sep)` for a one-character separator. -/
def strSplit (s : String) (sep : Char) : List String :=
  (splitChars sep s.toList).map List.asString

/-- Python `s.split(sep, 1)` for a one-character separator. -/
def splitOnce (s : String) (sep : Char) : List String :=
  (splitOnceChars sep s.toList).map List.asString

/-- The payload parsed from the callback data (handler lines 42–46):
`months`, `price_amount`, `sale_mode`. -/
structure ParsedPayload where
  months : PyFloat
  price : PyFloat
  saleMode : String
  deriving DecidableEq, Repr

/-- Lines 41–46 of payments_crypto.py, the body of the `try` clause:
`_, data_payload = callback.data.split(":", 1)` (a `ValueError` when there is
no separator), `parts = data_payload.split(":")`,
`months = float(parts[0])`, `price_amount = float(parts[1])` (a `ValueError`
when unparseable, an `IndexError` when `parts[1]` is missing),
`sale_mode = parts[2] if len(parts) > 2 else "subscription"`.
`none` is the caught `(ValueError, IndexError)` case. -/
def parsePayload (data : String) : Option ParsedPayload :=
  match splitOnce data ':' with
  | [_, payload] =>
    let parts := strSplit payload ':'
    match parts.head? with
    | none => none
    | some p0 =>
      match pyFloat? p0 with
      | none => none
      | some months =>
        match parts.get? 1 with
        | none => none
        | some p1 =>
          match pyFloat? p1 with
          | none => none
          | some price =>
            some ⟨months, price, (parts.get? 2).getD "subscription"⟩
  | _ => none

/-- Localization is an external collaborator (spec section 6); `get_text` is
abstracted as tagging the key with its parameter values, so two calls produce
the same string exactly when key and parameters coincide. -/
def get_text (key : String) (params : List String) : String :=
  params.foldl (fun acc p => acc ++ "|" ++ p) key

/-- Decimal rendering of an integer. -/
def intStr (i : Int) : String :=
  if i < 0 then "-" ++ (Nat.toDigits 10 i.natAbs).asString
  else (Nat.toDigits 10 i.natAbs).asString

/-- Rendering of a float by Python string formatting (`str`, percent-g);
digit strings abstracted as a rendering of the decimal representation.  No
claim depends on the digits Python prints. -/
def pyStr : PyFloat → String
  | .finite n p => intStr n ++ "e-" ++ intStr (p : Int)
  | .inf b => if b then "inf" else "-inf"
  | .nan => "nan"

/-- Line 55: `str(int(months)) if float(months).is_integer() else` the
percent-g rendering.  The `int` call in the first branch cannot raise, since
`is_integer` is false for infinities and nan. -/
def humanValue (m : PyFloat) : String :=
  if m.isInteger then
    match pyIntOf m with
    | Except.ok i => intStr i
    | Except.error _ => ""
  else pyStr m

/-- Lines 56–60: the payment description.  For the subscription branch the
keyword argument `months=int(months)` is evaluated, which raises for a
non-finite quantity; that raise escapes the handler (it is outside the
`try` of lines 41–52). -/
def paymentDescription (saleMode : String) (months : PyFloat) (hv : String) :
    Except PyError String :=
  if saleMode == "traffic" then
    Except.ok (get_text "payment_description_traffic" [hv])
  else
    match pyIntOf months with
    | Except.error e => Except.error e
    | Except.ok m => Except.ok (get_text "payment_description_subscription" [intStr m])

/-- The arguments of `get_payment_url_keyboard` (an external keyboard
builder): the invoice URL, language, back-callback payload and back-label
key. -/
structure Keyboard where
  url : String
  lang : String
  backCallback : String
  backTextKey : String
  deriving DecidableEq, Repr

/-- One externally visible action of the payment handler. -/
inductive PayEvent where
  | answerAlert (key : String)
  | answerPlain
  | createInvoice (userId : Int) (months : PyFloat) (amount : PyFloat)
      (description : String) (saleMode : String)
  | renderUpdate (text : String) (kb : Keyboard)
  | sendFallback (text : String) (image : Option String) (kb : Keyboard)
  deriving DecidableEq, Repr

/-- Environment of one handler invocation: the guard states, the identifiers
taken from the interaction, the gateway's answer, and whether each of the two
display calls raises.  `render_subscribe_menu` and `_send_menu_with_image`
live in `bot/handlers/user/subscription/core.py`, which is not part of the
given sources; per spec section 4.2 step 6 they are MenuRenderer's update-mode
and send-mode paths, and here they are abstract calls whose raise/no-raise
outcome the environment chooses.  `menuImage` is the value
`_menu_image_if_exists("menu_subscribe.png")` returns. -/
structure PayEnv where
  i18nAvailable : Bool
  hasMessage : Bool
  serviceConfigured : Bool
  userId : Int
  lang : String
  currencySymbol : String
  invoiceUrl : Option String
  renderUpdateRaises : Bool
  sendFallbackRaises : Bool
  menuImage : Option String

/-- Result of the handler: its trace, and the exception it raised past its
own handlers, if any. -/
structure PayResult where
  events : List PayEvent
  raised : Option PyError
  deriving DecidableEq, Repr

/-- Embedding of `pay_crypto_callback_handler` (payments_crypto.py lines
16–118).  Every `callback.answer` is wrapped in `try/except: pass` in the
source, so an answer attempt is recorded and never raises.  Likewise the
fallback `_send_menu_with_image` sits under `except Exception: pass`, so the
trace and result do not depend on `env.sendFallbackRaises`. -/
def pay_crypto_callback_handler (data : String) (env : PayEnv) : PayResult :=
  if !env.i18nAvailable || !env.hasMessage then
    { events := [PayEvent.answerAlert "error_occurred_try_again"], raised := none }
  else if !env.serviceConfigured then
    { events := [PayEvent.answerAlert "payment_service_unavailable_alert"], raised := none }
  else
    match parsePayload data with
    | none => { events := [PayEvent.answerAlert "error_try_again"], raised := none }
    | some p =>
      let hv := humanValue p.months
      match paymentDescription p.saleMode p.months hv with
      | Except.error e => { events := [], raised := some e }
      | Except.ok descr =>
        let priceDisplay := if p.saleMode == "traffic" then hv else pyStr p.price
        let invoiceCall := PayEvent.createInvoice env.userId p.months p.price descr p.saleMode
        match env.invoiceUrl with
        | none =>
          { events := [invoiceCall, PayEvent.answerAlert "error_payment_gateway"],
            raised := none }
        | some url =>
          -- line 77: the keyword argument months=int(months) is evaluated
          -- for both message keys and raises for a non-finite quantity
          match pyIntOf p.months with
          | Except.error e => { events := [invoiceCall], raised := some e }
          | Except.ok mi =>
            let key := if p.saleMode == "traffic" then "payment_link_message_traffic"
              else "payment_link_message"
            let ptext := get_text key
              [intStr mi, hv, priceDisplay, env.currencySymbol]
            let kb : Keyboard :=
              ⟨url, env.lang, "subscribe_period:" ++ hv, "back_to_payment_methods_button"⟩
            if env.renderUpdateRaises then
              { events := [invoiceCall, PayEvent.renderUpdate ptext kb,
                  PayEvent.sendFallback ptext env.menuImage kb, PayEvent.answerPlain],
                raised := none }
            else
              { events := [invoiceCall, PayEvent.renderUpdate ptext kb,
                  PayEvent.answerPlain],
                raised := none }

/-- The parse-rejection condition stated field-wise, following the claim's
words: the mode-tag split fails, or the first or second colon-separated field
of the payload is missing or not parseable as a float. -/
def badShape (data : String) : Bool :=
  match splitOnce data ':' with
  | [_, payload] =>
    let parts := strSplit payload ':'
    (match parts.head? with
     | none => true
     | some f0 => (pyFloat? f0).isNone) ||
    (match parts.get? 1 with
     | none => true
     | some f1 => (pyFloat? f1).isNone)
  | _ => true

/-!
## Helper lemmas
-/

/-- The plain-text edit step always yields `False`, whatever the edit's
outcome: success falls through to `return False`, failure is logged. -/
theorem afterCaption_fst (t : String) (k : Nat) (d : Bool) (env : UpdateEnv) :
    (updateAfterCaption t k d env).1 = false := by
  rcases h : env.editText with _ | e
  · simp [updateAfterCaption, h]
  · rcases e with r | r <;> simp [updateAfterCaption, h]

/-- The standalone caption-then-text tail succeeds (returns `True`) exactly
when the message has a photo and the caption edit goes through. -/
theorem fromPhotoCheck_fst (msg : Message) (cap : Option SurfaceError)
    (t : String) (k : Nat) (d : Bool) (env : UpdateEnv) :
    (updateFromPhotoCheck msg cap t k d env).1 = (msg.hasPhoto && cap.isNone) := by
  rcases hph : msg.hasPhoto <;> rcases cap with _ | e
  · simp [updateFromPhotoCheck, hph, afterCaption_fst]
  · rcases e with r | r <;> simp [updateFromPhotoCheck, hph, afterCaption_fst]
  · simp [updateFromPhotoCheck, hph]
  · rcases e with r | r <;> simp [updateFromPhotoCheck, hph, afterCaption_fst]

/-- When the text edit fails, the text step's trace carries a log record. -/
theorem afterCaption_log (t : String) (k : Nat) (d : Bool) (env : UpdateEnv)
    (e : SurfaceError) (h : env.editText = some e) :
    ∃ l, Event.log l ∈ (updateAfterCaption t k d env).2 := by
  rcases e with r | r
  · by_cases hr : strContains (strLower r) "message is not modified"
    · exact ⟨LogEvent.debugTextNotModified, by simp [updateAfterCaption, h, hr]⟩
    · exact ⟨LogEvent.errTextEdit, by simp [updateAfterCaption, h, hr]⟩
  · exact ⟨LogEvent.errTextUnexpected, by simp [updateAfterCaption, h]⟩

/-- When both the caption edit (if attempted) and the text edit fail, the
caption-then-text tail logs something. -/
theorem fromPhotoCheck_log (msg : Message) (cap : Option SurfaceError)
    (t : String) (k : Nat) (d : Bool) (env : UpdateEnv)
    (e e' : SurfaceError) (hc : cap = some e) (ht : env.editText = some e') :
    ∃ l, Event.log l ∈ (updateFromPhotoCheck msg cap t k d env).2 := by
  subst hc
  rcases hph : msg.hasPhoto
  · simpa [updateFromPhotoCheck, hph] using afterCaption_log t k d env e' ht
  · rcases e with r | r
    · by_cases hr : strContains (strLower r) "not modified"
      · exact ⟨LogEvent.debugCaptionNotModified,
          by simp [updateFromPhotoCheck, hph, hr]⟩
      · exact ⟨LogEvent.warnCaptionExisting,
          by simp [updateFromPhotoCheck, hph, hr]⟩
    · exact ⟨LogEvent.errCaptionExisting, by simp [updateFromPhotoCheck, hph]⟩

/-!
## Claims
-/

/-- C1.  For every render request and every combination of chat-surface
failures, `update_menu_message` and `render_menu_content` return a boolean
(the embedding is a total function, mirroring that every surface `await` in
the source sits under an `except` handler), total failure yields `false` for
both entry points, and the run emits at least one log record. -/
theorem C1_boundary_total_failure (e : TEvent) (m : Option Message)
    (t : String) (img : Option String) (k : Nat) (d : Bool) (env : RenderEnv)
    (h : env.allFail) :
    (update_menu_message m t img k d env.update).1 = false ∧
    (render_menu_content e t img k d env).1 = false ∧
    (∃ l, Event.log l ∈ (render_menu_content e t img k d env).2) := by
  obtain ⟨⟨hm, hc1, hc2, ht⟩, hp, hs⟩ := h
  obtain ⟨em, hem⟩ := Option.isSome_iff_exists.mp hm
  obtain ⟨c1, hec1⟩ := Option.isSome_iff_exists.mp hc1
  obtain ⟨c2, hec2⟩ := Option.isSome_iff_exists.mp hc2
  obtain ⟨et, het⟩ := Option.isSome_iff_exists.mp ht
  obtain ⟨sp, hsp⟩ := Option.isSome_iff_exists.mp hp
  obtain ⟨st, hst⟩ := Option.isSome_iff_exists.mp hs
  have hupd : ∀ m', (update_menu_message m' t img k d env.update).1 = false := by
    intro m'
    rcases m' with _ | msg
    · simp [update_menu_message]
    · rcases img with _ | fn
      · simp [update_menu_message, fromPhotoCheck_fst, hec1]
      · by_cases hfn : fn = ""
        · simp [update_menu_message, hfn, fromPhotoCheck_fst, hec1]
        · by_cases hfe : env.update.fileExists (imagePathOf fn)
          · rcases em with r | r
            · rcases hph : msg.hasPhoto
              · simp [update_menu_message, hfn, hfe, hem, hph,
                  fromPhotoCheck_fst, hec1]
              · simp [update_menu_message, hfn, hfe, hem, hph, hec1,
                  fromPhotoCheck_fst, hec2]
            · simp [update_menu_message, hfn, hfe, hem,
                fromPhotoCheck_fst, hec1]
          · simp [update_menu_message, hfn, hfe, fromPhotoCheck_fst, hec1]
  have hupdlog : ∀ msg, ∃ l,
      Event.log l ∈ (update_menu_message (some msg) t img k d env.update).2 := by
    intro msg
    rcases img with _ | fn
    · simpa [update_menu_message] using
        fromPhotoCheck_log msg _ t k d env.update c1 et hec1 het
    · by_cases hfn : fn = ""
      · simpa [update_menu_message, hfn] using
          fromPhotoCheck_log msg _ t k d env.update c1 et hec1 het
      · by_cases hfe : env.update.fileExists (imagePathOf fn)
        · rcases em with r | r
          · exact ⟨LogEvent.warnEditMedia, by
              rcases hph : msg.hasPhoto
              · simp [update_menu_message, hfn, hfe, hem, hph]
              · simp [update_menu_message, hfn, hfe, hem, hph, hec1]⟩
          · exact ⟨LogEvent.errEditMedia, by
              simp [update_menu_message, hfn, hfe, hem]⟩
        · exact ⟨LogEvent.warnFileNotFound, by
            simp [update_menu_message, hfn, hfe]⟩
  refine ⟨hupd m, ?_, ?_⟩
  · rcases e with om | msg
    · rcases om with _ | msg
      · simp [render_menu_content]
      · simpa [render_menu_content] using hupd (some msg)
    · rcases img with _ | fn
      · simp [render_menu_content, sendTextStep, hst]
      · by_cases hfn : fn = ""
        · simp [render_menu_content, hfn, sendTextStep, hst]
        · by_cases hfe : env.update.fileExists (imagePathOf fn)
          · simp [render_menu_content, hfn, hfe, hsp, sendTextStep, hst]
          · simp [render_menu_content, hfn, hfe, sendTextStep, hst]
  · rcases e with om | msg
    · rcases om with _ | msg
      · exact ⟨LogEvent.errNoTarget, by simp [render_menu_content]⟩
      · simpa [render_menu_content] using hupdlog msg
    · rcases img with _ | fn
      · exact ⟨LogEvent.errSendText, by
          simp [render_menu_content, sendTextStep, hst]⟩
      · by_cases hfn : fn = ""
        · exact ⟨LogEvent.errSendText, by
            simp [render_menu_content, hfn, sendTextStep, hst]⟩
        · by_cases hfe : env.update.fileExists (imagePathOf fn)
          · exact ⟨LogEvent.warnSendPhoto, by
              simp [render_menu_content, hfn, hfe, hsp]⟩
          · exact ⟨LogEvent.errSendText, by
              simp [render_menu_content, hfn, hfe, sendTextStep, hst]⟩

/-- An update environment in which every surface call fails. -/
def failingUpdateEnv : UpdateEnv :=
  { fileExists := fun _ => true,
    editMedia := some (SurfaceError.other "network down"),
    editCaption1 := some (SurfaceError.other "network down"),
    editCaption2 := some (SurfaceError.other "network down"),
    editText := some (SurfaceError.other "network down") }

/-- A render environment in which every surface call fails. -/
def failingRenderEnv : RenderEnv :=
  { update := failingUpdateEnv,
    sendPhoto := some (SurfaceError.other "network down"),
    sendText := some (SurfaceError.other "network down") }

/-- Witness for C1 at a concrete totally failing environment. -/
theorem C1_boundary_total_failure_witness :
    failingRenderEnv.allFail ∧
    ((update_menu_message (some ⟨7, true⟩) "menu" (some "m.png") 0 true
        failingRenderEnv.update).1 = false ∧
      (render_menu_content (TEvent.message ⟨7, true⟩) "menu" (some "m.png") 0 true
        failingRenderEnv).1 = false ∧
      (∃ l, Event.log l ∈ (render_menu_content (TEvent.message ⟨7, true⟩) "menu"
        (some "m.png") 0 true failingRenderEnv).2)) :=
  ⟨⟨⟨rfl, rfl, rfl, rfl⟩, rfl, rfl⟩,
    C1_boundary_total_failure (TEvent.message ⟨7, true⟩) (some ⟨7, true⟩)
      "menu" (some "m.png") 0 true failingRenderEnv
      ⟨⟨rfl, rfl, rfl, rfl⟩, rfl, rfl⟩⟩

/-- A payment environment whose guards all pass, with the gateway returning
an invoice URL and the update-mode display call raising. -/
def serviceEnv : PayEnv :=
  { i18nAvailable := true, hasMessage := true, serviceConfigured := true,
    userId := 42, lang := "en", currencySymbol := "$",
    invoiceUrl := some "https://pay.example/i1", renderUpdateRaises := true,
    sendFallbackRaises := true, menuImage := some "menu_subscribe.png" }

/-- C2.  The payload parse maps "pay_crypto:3:9.99" to quantity 3, price 9.99
and the default sale mode "subscription", and "pay_crypto:10:5:traffic" to
quantity 10, price 5 and sale mode "traffic"; "pay_crypto:abc" fails to
parse, the interaction is acknowledged with the generic retry alert, nothing
is raised, and the gateway's invoice-creation operation is never invoked. -/
theorem C2_payload_parse (env : PayEnv)
    (h1 : env.i18nAvailable = true) (h2 : env.hasMessage = true)
    (h3 : env.serviceConfigured = true) :
    parsePayload "pay_crypto:3:9.99" =
      some ⟨PyFloat.finite 3 0, PyFloat.finite 999 2, "subscription"⟩ ∧
    (PyFloat.finite 3 0).val = some (3 : ℚ) ∧
    (PyFloat.finite 999 2).val = some (9.99 : ℚ) ∧
    parsePayload "pay_crypto:10:5:traffic" =
      some ⟨PyFloat.finite 10 0, PyFloat.finite 5 0, "traffic"⟩ ∧
    (PyFloat.finite 10 0).val = some (10 : ℚ) ∧
    (PyFloat.finite 5 0).val = some (5 : ℚ) ∧
    parsePayload "pay_crypto:abc" = none ∧
    (pay_crypto_callback_handler "pay_crypto:abc" env).events =
      [PayEvent.answerAlert "error_try_again"] ∧
    (pay_crypto_callback_handler "pay_crypto:abc" env).raised = none ∧
    (∀ u mo pr de sm, PayEvent.createInvoice u mo pr de sm ∉
      (pay_crypto_callback_handler "pay_crypto:abc" env).events) := by
  have hparse : parsePayload "pay_crypto:abc" = none := by decide
  refine ⟨by decide, by norm_num [PyFloat.val], by norm_num [PyFloat.val],
    by decide, by norm_num [PyFloat.val], by norm_num [PyFloat.val], hparse,
    ?_, ?_, ?_⟩
  · simp [pay_crypto_callback_handler, h1, h2, h3, hparse]
  · simp [pay_crypto_callback_handler, h1, h2, h3, hparse]
  · intro u mo pr de sm
    simp [pay_crypto_callback_handler, h1, h2, h3, hparse]

/-- Witness for C2 at the concrete passing-guards environment. -/
theorem C2_payload_parse_witness :
    (serviceEnv.i18nAvailable = true ∧ serviceEnv.hasMessage = true ∧
      serviceEnv.serviceConfigured = true) ∧
    ((pay_crypto_callback_handler "pay_crypto:abc" serviceEnv).events =
      [PayEvent.answerAlert "error_try_again"] ∧
     (pay_crypto_callback_handler "pay_crypto:abc" serviceEnv).raised = none) :=
  ⟨⟨rfl, rfl, rfl⟩,
    (C2_payload_parse serviceEnv rfl rfl rfl).2.2.2.2.2.2.2.1,
    (C2_payload_parse serviceEnv rfl rfl rfl).2.2.2.2.2.2.2.2.1⟩

/-- With a photo and a succeeding caption edit, the caption-then-text tail
stops after the single caption call. -/
theorem fromPhotoCheck_cap_none (msg : Message) (t : String) (k : Nat)
    (d : Bool) (env : UpdateEnv) (hph : msg.hasPhoto = true) :
    updateFromPhotoCheck msg none t k d env =
      (true, [Event.callEditCaption t k]) := by
  simp [updateFromPhotoCheck, hph]

/-- When the text edit is rejected with a reason containing (case-folded)
"message is not modified", and the caption-then-text tail does reach the text
step (no photo, or a failing caption edit), the tail ends with the text call
followed by the benign debug record, yields `false`, and the events before it hold no
text-step error log. -/
theorem fromPhotoCheck_textNotModified (msg : Message) (cap : Option SurfaceError)
    (t : String) (k : Nat) (d : Bool) (env : UpdateEnv) (r : String)
    (h : env.editText = some (SurfaceError.badRequest r))
    (hr : strContains (strLower r) "message is not modified" = true)
    (hno : msg.hasPhoto = false ∨ cap.isSome = true) :
    ∃ pre, updateFromPhotoCheck msg cap t k d env =
      (false, pre ++ [Event.callEditText t d k, Event.log LogEvent.debugTextNotModified]) ∧
      Event.log LogEvent.errTextEdit ∉ pre ∧
      Event.log LogEvent.errTextUnexpected ∉ pre := by
  have hafter : updateAfterCaption t k d env =
      (false, [Event.callEditText t d k, Event.log LogEvent.debugTextNotModified]) := by
    simp [updateAfterCaption, h, hr]
  rcases hph : msg.hasPhoto
  · exact ⟨[], by simp [updateFromPhotoCheck, hph, hafter], by simp, by simp⟩
  · rcases hno with hno | hno
    · rw [hph] at hno; cases hno
    · obtain ⟨e, he⟩ := Option.isSome_iff_exists.mp hno
      subst he
      rcases e with r' | r'
      · by_cases hr' : strContains (strLower r') "not modified"
        · exact ⟨[Event.callEditCaption t k, Event.log LogEvent.debugCaptionNotModified],
            by simp [updateFromPhotoCheck, hph, hr', hafter], by simp, by simp⟩
        · exact ⟨[Event.callEditCaption t k, Event.log LogEvent.warnCaptionExisting],
            by simp [updateFromPhotoCheck, hph, hr', hafter], by simp, by simp⟩
      · exact ⟨[Event.callEditCaption t k, Event.log LogEvent.errCaptionExisting],
          by simp [updateFromPhotoCheck, hph, hafter], by simp, by simp⟩

/-- An environment whose text edit is rejected with a reason that contains
"not modified" but not the full "message is not modified" the source tests
for. -/
def notModifiedEnv : UpdateEnv :=
  { fileExists := fun _ => false,
    editMedia := none, editCaption1 := none, editCaption2 := none,
    editText := some (SurfaceError.badRequest "Bad Request: Not Modified") }

/-- Counterexample to C3 as stated.  The rejection reason
"Bad Request: Not Modified" contains the substring "not modified"
(case-insensitively), yet `update_menu_message` logs `errTextEdit`, an
error-severity record, for it: the source tests for the longer substring
"message is not modified" on the text-edit path (line 115), not for
"not modified". -/
theorem C3_counterexample :
    strContains (strLower "Bad Request: Not Modified") "not modified" = true ∧
    strContains (strLower "Bad Request: Not Modified") "message is not modified" = false ∧
    LogEvent.errTextEdit.sev = LogSev.error ∧
    (update_menu_message (some ⟨5, false⟩) "txt" none 0 true notModifiedEnv).2 =
      [Event.callEditText "txt" true 0, Event.log LogEvent.errTextEdit] ∧
    (update_menu_message (some ⟨5, false⟩) "txt" none 0 true notModifiedEnv).1 = false :=
  ⟨by decide, by decide, rfl, by decide, by decide⟩

/-- C3 as amended: the substring the text-edit path treats as benign is
"message is not modified" (case-insensitive).  For every update-mode run whose
text edit is attempted and rejected with such a reason, no error-severity log
is emitted for that rejection (neither `errTextEdit` nor `errTextUnexpected`
appears anywhere in the trace), no further attempt follows (the trace ends
with the text call and the debug record), and the outcome is `false`. -/
theorem C3_amended (m : Option Message) (t : String) (img : Option String)
    (k : Nat) (d : Bool) (env : UpdateEnv) (r : String)
    (h : env.editText = some (SurfaceError.badRequest r))
    (hr : strContains (strLower r) "message is not modified" = true)
    (hc : Event.callEditText t d k ∈ (update_menu_message m t img k d env).2) :
    (update_menu_message m t img k d env).1 = false ∧
    Event.log LogEvent.errTextEdit ∉ (update_menu_message m t img k d env).2 ∧
    Event.log LogEvent.errTextUnexpected ∉ (update_menu_message m t img k d env).2 ∧
    ∃ pre, (update_menu_message m t img k d env).2 =
      pre ++ [Event.callEditText t d k, Event.log LogEvent.debugTextNotModified] := by
  rcases m with _ | msg
  · simp [update_menu_message] at hc
  · have funnel : ∀ (cap : Option SurfaceError) (P : List Event),
        Event.callEditText t d k ∉ P →
        Event.log LogEvent.errTextEdit ∉ P →
        Event.log LogEvent.errTextUnexpected ∉ P →
        (Event.callEditText t d k ∈
          P ++ (updateFromPhotoCheck msg cap t k d env).2) →
        ((updateFromPhotoCheck msg cap t k d env).1 = false ∧
          Event.log LogEvent.errTextEdit ∉
            P ++ (updateFromPhotoCheck msg cap t k d env).2 ∧
          Event.log LogEvent.errTextUnexpected ∉
            P ++ (updateFromPhotoCheck msg cap t k d env).2 ∧
          ∃ pre, P ++ (updateFromPhotoCheck msg cap t k d env).2 =
            pre ++ [Event.callEditText t d k, Event.log LogEvent.debugTextNotModified]) := by
      intro cap P hP0 hP1 hP2 hcc
      by_cases hok : msg.hasPhoto = false ∨ cap.isSome = true
      · obtain ⟨pre, heq, h1, h2⟩ :=
          fromPhotoCheck_textNotModified msg cap t k d env r h hr hok
        refine ⟨by rw [heq], ?_, ?_, P ++ pre, ?_⟩
        · rw [heq]; simp [hP1, h1]
        · rw [heq]; simp [hP2, h2]
        · rw [heq]; simp
      · push_neg at hok
        obtain ⟨hph, hcap⟩ := hok
        have hph' : msg.hasPhoto = true := by
          cases hb : msg.hasPhoto
          · exact absurd hb hph
          · rfl
        have hcap' : cap = none := by
          cases cap
          · rfl
          · exact absurd rfl hcap
        subst hcap'
        rw [fromPhotoCheck_cap_none msg t k d env hph'] at hcc
        simp at hcc
        exact absurd hcc hP0
    rcases img with _ | fn
    · have heq : update_menu_message (some msg) t none k d env =
          ((updateFromPhotoCheck msg env.editCaption1 t k d env).1,
            [] ++ (updateFromPhotoCheck msg env.editCaption1 t k d env).2) := by
        simp [update_menu_message]
      rw [heq] at hc ⊢
      exact funnel env.editCaption1 [] (by simp) (by simp) (by simp) hc
    · by_cases hfn : fn = ""
      · have heq : update_menu_message (some msg) t (some fn) k d env =
            ((updateFromPhotoCheck msg env.editCaption1 t k d env).1,
              [] ++ (updateFromPhotoCheck msg env.editCaption1 t k d env).2) := by
          simp [update_menu_message, hfn]
        rw [heq] at hc ⊢
        exact funnel env.editCaption1 [] (by simp) (by simp) (by simp) hc
      · by_cases hfe : env.fileExists (imagePathOf fn)
        · rcases hem : env.editMedia with _ | em
          · rw [update_menu_message] at hc
            simp [hfn, hfe, hem] at hc
          · rcases em with r'' | r''
            · rcases hph : msg.hasPhoto
              · have heq : update_menu_message (some msg) t (some fn) k d env =
                    ((updateFromPhotoCheck msg env.editCaption1 t k d env).1,
                      [Event.callEditMedia (imagePathOf fn) t k,
                        Event.log LogEvent.warnEditMedia] ++
                      (updateFromPhotoCheck msg env.editCaption1 t k d env).2) := by
                  simp [update_menu_message, hfn, hfe, hem, hph]
                rw [heq] at hc ⊢
                exact funnel env.editCaption1 _ (by simp) (by simp) (by simp) hc
              · rcases hec1 : env.editCaption1 with _ | capErr
                · rw [update_menu_message] at hc
                  simp [hfn, hfe, hem, hph, hec1] at hc
                · rcases capErr with rc | rc
                  · have heq : update_menu_message (some msg) t (some fn) k d env =
                        ((updateFromPhotoCheck msg env.editCaption2 t k d env).1,
                          [Event.callEditMedia (imagePathOf fn) t k,
                            Event.log LogEvent.warnEditMedia,
                            Event.callEditCaption t k,
                            Event.log LogEvent.warnCaptionFallback] ++
                          (updateFromPhotoCheck msg env.editCaption2 t k d env).2) := by
                      simp [update_menu_message, hfn, hfe, hem, hph, hec1]
                    rw [heq] at hc ⊢
                    exact funnel env.editCaption2 _ (by simp) (by simp) (by simp) hc
                  · have heq : update_menu_message (some msg) t (some fn) k d env =
                        ((updateFromPhotoCheck msg env.editCaption2 t k d env).1,
                          [Event.callEditMedia (imagePathOf fn) t k,
                            Event.log LogEvent.warnEditMedia,
                            Event.callEditCaption t k,
                            Event.log LogEvent.errCaptionFallback] ++
                          (updateFromPhotoCheck msg env.editCaption2 t k d env).2) := by
                      simp [update_menu_message, hfn, hfe, hem, hph, hec1]
                    rw [heq] at hc ⊢
                    exact funnel env.editCaption2 _ (by simp) (by simp) (by simp) hc
            · have heq : update_menu_message (some msg) t (some fn) k d env =
                  ((updateFromPhotoCheck msg env.editCaption1 t k d env).1,
                    [Event.callEditMedia (imagePathOf fn) t k,
                      Event.log LogEvent.errEditMedia] ++
                    (updateFromPhotoCheck msg env.editCaption1 t k d env).2) := by
                simp [update_menu_message, hfn, hfe, hem]
              rw [heq] at hc ⊢
              exact funnel env.editCaption1 _ (by simp) (by simp) (by simp) hc
        · have heq : update_menu_message (some msg) t (some fn) k d env =
              ((updateFromPhotoCheck msg env.editCaption1 t k d env).1,
                [Event.log LogEvent.warnFileNotFound] ++
                (updateFromPhotoCheck msg env.editCaption1 t k d env).2) := by
            simp [update_menu_message, hfn, hfe]
          rw [heq] at hc ⊢
          exact funnel env.editCaption1 _ (by simp) (by simp) (by simp) hc

/-- An environment whose text edit is rejected with the full reason string
the source treats as benign. -/
def benignTextEnv : UpdateEnv :=
  { fileExists := fun _ => false,
    editMedia := none, editCaption1 := none, editCaption2 := none,
    editText := some (SurfaceError.badRequest "Bad Request: message is not modified") }

/-- Witness for the amended C3 at a concrete benign rejection. -/
theorem C3_amended_witness :
    (benignTextEnv.editText =
      some (SurfaceError.badRequest "Bad Request: message is not modified") ∧
     strContains (strLower "Bad Request: message is not modified")
       "message is not modified" = true ∧
     Event.callEditText "txt" true 0 ∈
       (update_menu_message (some ⟨5, false⟩) "txt" none 0 true benignTextEnv).2) ∧
    ((update_menu_message (some ⟨5, false⟩) "txt" none 0 true benignTextEnv).1 = false ∧
     Event.log LogEvent.errTextEdit ∉
       (update_menu_message (some ⟨5, false⟩) "txt" none 0 true benignTextEnv).2 ∧
     Event.log LogEvent.errTextUnexpected ∉
       (update_menu_message (some ⟨5, false⟩) "txt" none 0 true benignTextEnv).2 ∧
     ∃ pre, (update_menu_message (some ⟨5, false⟩) "txt" none 0 true benignTextEnv).2 =
       pre ++ [Event.callEditText "txt" true 0, Event.log LogEvent.debugTextNotModified]) :=
  ⟨⟨rfl, by decide, by decide⟩,
    C3_amended (some ⟨5, false⟩) "txt" none 0 true benignTextEnv
      "Bad Request: message is not modified" rfl (by decide) (by decide)⟩

/-- C4.  A render request whose image file does not exist at call time
behaves exactly like the same request with no image: the media/photo step is
skipped, the sequence of chat-surface calls is the same, and so is the
returned outcome (only the file-not-found warning log differs, in update
mode). -/
theorem C4_missing_file (e : TEvent) (t fn : String) (k : Nat) (d : Bool)
    (env : RenderEnv) (hfn : fn ≠ "")
    (hfe : env.update.fileExists (imagePathOf fn) = false) :
    (render_menu_content e t (some fn) k d env).1 =
      (render_menu_content e t none k d env).1 ∧
    calls (render_menu_content e t (some fn) k d env).2 =
      calls (render_menu_content e t none k d env).2 := by
  rcases e with om | msg
  · rcases om with _ | msg
    · exact ⟨rfl, rfl⟩
    · constructor
      · simp [render_menu_content, update_menu_message, hfn, hfe]
      · simp [render_menu_content, update_menu_message, hfn, hfe, calls,
          Event.isCall]
  · constructor
    · simp [render_menu_content, hfn, hfe]
    · simp [render_menu_content, hfn, hfe]

/-- A render environment whose image root holds no files. -/
def noFilesRenderEnv : RenderEnv :=
  { update :=
      { fileExists := fun _ => false,
        editMedia := none,
        editCaption1 := some (SurfaceError.badRequest "Bad Request: chat not found"),
        editCaption2 := none,
        editText := none },
    sendPhoto := none,
    sendText := none }

/-- Witness for C4 at a concrete missing file. -/
theorem C4_missing_file_witness :
    ("ghost.png" ≠ "" ∧
      noFilesRenderEnv.update.fileExists (imagePathOf "ghost.png") = false) ∧
    ((render_menu_content (TEvent.callbackQuery (some ⟨2, true⟩)) "txt"
        (some "ghost.png") 0 true noFilesRenderEnv).1 =
      (render_menu_content (TEvent.callbackQuery (some ⟨2, true⟩)) "txt"
        none 0 true noFilesRenderEnv).1 ∧
     calls (render_menu_content (TEvent.callbackQuery (some ⟨2, true⟩)) "txt"
        (some "ghost.png") 0 true noFilesRenderEnv).2 =
      calls (render_menu_content (TEvent.callbackQuery (some ⟨2, true⟩)) "txt"
        none 0 true noFilesRenderEnv).2) :=
  ⟨⟨by decide, rfl⟩,
    C4_missing_file (TEvent.callbackQuery (some ⟨2, true⟩)) "txt" "ghost.png"
      0 true noFilesRenderEnv (by decide) rfl⟩

/-- C5.  Send mode with an existing image file: a succeeding photo send
returns `true` after that single call; a failing photo send is followed by
exactly one fallback text send (carrying the text, the controls and the
link-preview setting), the outcome is `false` whatever that text send does,
and neither send is ever attempted twice. -/
theorem C5_send_fallback (msg : Message) (t fn : String) (k : Nat) (d : Bool)
    (env : RenderEnv) (hfn : fn ≠ "")
    (hfe : env.update.fileExists (imagePathOf fn) = true) :
    (env.sendPhoto = none →
      render_menu_content (TEvent.message msg) t (some fn) k d env =
        (true, [Event.callSendPhoto (imagePathOf fn) t k])) ∧
    (∀ err, env.sendPhoto = some err →
      (render_menu_content (TEvent.message msg) t (some fn) k d env).1 = false ∧
      Event.callSendText t d k ∈
        (render_menu_content (TEvent.message msg) t (some fn) k d env).2 ∧
      countSendText (render_menu_content (TEvent.message msg) t (some fn) k d env).2 = 1 ∧
      countSendPhoto (render_menu_content (TEvent.message msg) t (some fn) k d env).2 = 1) := by
  constructor
  · intro hsp
    simp [render_menu_content, hfn, hfe, hsp]
  · intro err hsp
    rcases hst : env.sendText with _ | e <;>
      simp [render_menu_content, hfn, hfe, hsp, sendTextStep, hst,
        countSendText, countSendPhoto]

/-- Witness for C5: photo send fails, and the fallback text send itself
fails too; outcome is still `false` after exactly one of each call. -/
theorem C5_send_fallback_witness :
    ("m.png" ≠ "" ∧
      failingRenderEnv.update.fileExists (imagePathOf "m.png") = true ∧
      failingRenderEnv.sendPhoto = some (SurfaceError.other "network down")) ∧
    ((render_menu_content (TEvent.message ⟨7, false⟩) "txt" (some "m.png") 0 true
        failingRenderEnv).1 = false ∧
     Event.callSendText "txt" true 0 ∈
       (render_menu_content (TEvent.message ⟨7, false⟩) "txt" (some "m.png") 0 true
         failingRenderEnv).2 ∧
     countSendText (render_menu_content (TEvent.message ⟨7, false⟩) "txt"
       (some "m.png") 0 true failingRenderEnv).2 = 1 ∧
     countSendPhoto (render_menu_content (TEvent.message ⟨7, false⟩) "txt"
       (some "m.png") 0 true failingRenderEnv).2 = 1) :=
  ⟨⟨by decide, rfl, rfl⟩,
    (C5_send_fallback ⟨7, false⟩ "txt" "m.png" 0 true failingRenderEnv
      (by decide) rfl).2 (SurfaceError.other "network down") rfl⟩

/-- When `int(months)` succeeds, the description derivation cannot raise. -/
theorem paymentDescription_ok (sm : String) (m : PyFloat) (hv : String)
    (mi : Int) (hmi : pyIntOf m = Except.ok mi) :
    paymentDescription sm m hv = Except.ok
      (if sm == "traffic" then get_text "payment_description_traffic" [hv]
        else get_text "payment_description_subscription" [intStr mi]) := by
  by_cases hsm : sm == "traffic" <;> simp [paymentDescription, hsm, hmi]

/-- C6.  When the guards pass, the payload parses, the gateway returns a URL
and the update-mode display call raises, the send-mode fallback is attempted
exactly once with the same confirmation text and the same control-layout
arguments; whatever that second attempt does (its raise is swallowed), the
interaction is then acknowledged with a plain answer and no alert, and
nothing propagates.  (`render_subscribe_menu` and `_send_menu_with_image`
come from `core.py`, which is outside the given sources; they are modelled
as abstract display calls per spec section 4.2 step 6.) -/
theorem C6_update_render_raises (data : String) (env : PayEnv)
    (p : ParsedPayload) (mi : Int) (url : String)
    (h1 : env.i18nAvailable = true) (h2 : env.hasMessage = true)
    (h3 : env.serviceConfigured = true)
    (hp : parsePayload data = some p)
    (hmi : pyIntOf p.months = Except.ok mi)
    (hu : env.invoiceUrl = some url)
    (hr : env.renderUpdateRaises = true) :
    ∃ de pt kb,
      (pay_crypto_callback_handler data env).events =
        [PayEvent.createInvoice env.userId p.months p.price de p.saleMode,
         PayEvent.renderUpdate pt kb,
         PayEvent.sendFallback pt env.menuImage kb,
         PayEvent.answerPlain] ∧
      (pay_crypto_callback_handler data env).raised = none := by
  have hd := paymentDescription_ok p.saleMode p.months (humanValue p.months) mi hmi
  refine ⟨if p.saleMode == "traffic" then
      get_text "payment_description_traffic" [humanValue p.months]
    else get_text "payment_description_subscription" [intStr mi],
    get_text (if p.saleMode == "traffic" then "payment_link_message_traffic"
      else "payment_link_message")
      [intStr mi, humanValue p.months,
        if p.saleMode == "traffic" then humanValue p.months else pyStr p.price,
        env.currencySymbol],
    ⟨url, env.lang, "subscribe_period:" ++ humanValue p.months,
      "back_to_payment_methods_button"⟩, ?_, ?_⟩ <;>
    simp [pay_crypto_callback_handler, h1, h2, h3, hp, hd, hu, hmi, hr]

/-- Witness for C6: concrete payload, gateway URL, raising update render and
raising fallback; the trace still ends in a plain acknowledgment. -/
theorem C6_update_render_raises_witness :
    (serviceEnv.i18nAvailable = true ∧ serviceEnv.hasMessage = true ∧
      serviceEnv.serviceConfigured = true ∧
      parsePayload "pay_crypto:3:9.99" =
        some ⟨PyFloat.finite 3 0, PyFloat.finite 999 2, "subscription"⟩ ∧
      pyIntOf (PyFloat.finite 3 0) = Except.ok 3 ∧
      serviceEnv.invoiceUrl = some "https://pay.example/i1" ∧
      serviceEnv.renderUpdateRaises = true ∧
      serviceEnv.sendFallbackRaises = true) ∧
    (∃ de pt kb,
      (pay_crypto_callback_handler "pay_crypto:3:9.99" serviceEnv).events =
        [PayEvent.createInvoice serviceEnv.userId (PyFloat.finite 3 0)
           (PyFloat.finite 999 2) de "subscription",
         PayEvent.renderUpdate pt kb,
         PayEvent.sendFallback pt serviceEnv.menuImage kb,
         PayEvent.answerPlain] ∧
      (pay_crypto_callback_handler "pay_crypto:3:9.99" serviceEnv).raised = none) :=
  ⟨⟨rfl, rfl, rfl, by decide, rfl, rfl, rfl, rfl⟩,
    C6_update_render_raises "pay_crypto:3:9.99" serviceEnv
      ⟨PyFloat.finite 3 0, PyFloat.finite 999 2, "subscription"⟩ 3
      "https://pay.example/i1" rfl rfl rfl (by decide) rfl rfl rfl⟩

/-- An environment that drives both caption-edit attempts: the media edit is
rejected by the surface and the first caption attempt fails too. -/
def captionTwiceEnv : UpdateEnv :=
  { fileExists := fun _ => true,
    editMedia := some (SurfaceError.badRequest "Bad Request: there is no media in the message to edit"),
    editCaption1 := some (SurfaceError.badRequest "Bad Request: chat not found"),
    editCaption2 := none,
    editText := none }

/-- Counterexample to C7 as stated.  In one call to `update_menu_message`
the caption-edit operation is invoked twice: once as the media-failure
fallback (source lines 54–60) and once on the standalone existing-photo path
(lines 84–91), which runs again because control falls through after the
fallback caption fails. -/
theorem C7_counterexample :
    countCaption (update_menu_message (some ⟨9, true⟩) "txt" (some "menu.png")
      0 true captionTwiceEnv).2 = 2 := by decide

/-- Counts of the text-edit tail: one text call, nothing else. -/
theorem afterCaption_counts (t : String) (k : Nat) (d : Bool) (env : UpdateEnv) :
    countCaption (updateAfterCaption t k d env).2 = 0 ∧
    countMedia (updateAfterCaption t k d env).2 = 0 ∧
    countText (updateAfterCaption t k d env).2 = 1 ∧
    countSendPhoto (updateAfterCaption t k d env).2 = 0 ∧
    countSendText (updateAfterCaption t k d env).2 = 0 := by
  rcases h : env.editText with _ | e
  · simp [updateAfterCaption, h, countCaption, countMedia, countText,
      countSendPhoto, countSendText]
  · rcases e with r | r <;>
      simp [updateAfterCaption, h, countCaption, countMedia, countText,
        countSendPhoto, countSendText]

/-- Counts of the caption-then-text tail: at most one caption call, at most
one text call, nothing else. -/
theorem fromPhotoCheck_counts (msg : Message) (cap : Option SurfaceError)
    (t : String) (k : Nat) (d : Bool) (env : UpdateEnv) :
    countCaption (updateFromPhotoCheck msg cap t k d env).2 ≤ 1 ∧
    countMedia (updateFromPhotoCheck msg cap t k d env).2 = 0 ∧
    countText (updateFromPhotoCheck msg cap t k d env).2 ≤ 1 ∧
    countSendPhoto (updateFromPhotoCheck msg cap t k d env).2 = 0 ∧
    countSendText (updateFromPhotoCheck msg cap t k d env).2 = 0 := by
  obtain ⟨a1, a2, a3, a4, a5⟩ := afterCaption_counts t k d env
  rcases hph : msg.hasPhoto <;> rcases cap with _ | e
  · simp [updateFromPhotoCheck, hph]; omega
  · rcases e with r | r <;> (simp [updateFromPhotoCheck, hph]; omega)
  · simp [updateFromPhotoCheck, hph, countCaption, countMedia, countText,
      countSendPhoto, countSendText]
  · rcases e with r | r <;>
      (simp [updateFromPhotoCheck, hph, countCaption, countMedia, countText,
        countSendPhoto, countSendText]; omega)

/-- C7 as amended.  In one call to `update_menu_message` the caption edit is
invoked at most twice (the claim said at most once; the media-failure
fallback and the standalone photo path can each contribute one attempt);
every other surface operation is invoked at most once, and no send
operation ever. -/
theorem C7_amended_at_most_twice (m : Option Message) (t : String)
    (img : Option String) (k : Nat) (d : Bool) (env : UpdateEnv) :
    countCaption (update_menu_message m t img k d env).2 ≤ 2 ∧
    countMedia (update_menu_message m t img k d env).2 ≤ 1 ∧
    countText (update_menu_message m t img k d env).2 ≤ 1 ∧
    countSendPhoto (update_menu_message m t img k d env).2 = 0 ∧
    countSendText (update_menu_message m t img k d env).2 = 0 := by
  rcases m with _ | msg
  · simp [update_menu_message, countCaption, countMedia, countText,
      countSendPhoto, countSendText]
  · rcases img with _ | fn
    · obtain ⟨b1, b2, b3, b4, b5⟩ :=
        fromPhotoCheck_counts msg env.editCaption1 t k d env
      simp [update_menu_message]; omega
    · by_cases hfn : fn = ""
      · obtain ⟨b1, b2, b3, b4, b5⟩ :=
          fromPhotoCheck_counts msg env.editCaption1 t k d env
        simp [update_menu_message, hfn]; omega
      · by_cases hfe : env.fileExists (imagePathOf fn)
        · rcases hem : env.editMedia with _ | em
          · simp [update_menu_message, hfn, hfe, hem, countCaption, countMedia,
              countText, countSendPhoto, countSendText]
          · rcases em with r | r
            · rcases hph : msg.hasPhoto
              · obtain ⟨b1, b2, b3, b4, b5⟩ :=
                  fromPhotoCheck_counts msg env.editCaption1 t k d env
                simp [update_menu_message, hfn, hfe, hem, hph, countCaption,
                  countMedia, countText, countSendPhoto, countSendText]
                omega
              · rcases hec1 : env.editCaption1 with _ | capErr
                · simp [update_menu_message, hfn, hfe, hem, hph, hec1,
                    countCaption, countMedia, countText, countSendPhoto,
                    countSendText]
                · obtain ⟨b1, b2, b3, b4, b5⟩ :=
                    fromPhotoCheck_counts msg env.editCaption2 t k d env
                  rcases capErr with rc | rc <;>
                  · simp [update_menu_message, hfn, hfe, hem, hph, hec1,
                      countCaption, countMedia, countText, countSendPhoto,
                      countSendText]
                    omega
            · obtain ⟨b1, b2, b3, b4, b5⟩ :=
                fromPhotoCheck_counts msg env.editCaption1 t k d env
              simp [update_menu_message, hfn, hfe, hem, countCaption,
                countMedia, countText, countSendPhoto, countSendText]
              omega
        · obtain ⟨b1, b2, b3, b4, b5⟩ :=
            fromPhotoCheck_counts msg env.editCaption1 t k d env
          simp [update_menu_message, hfn, hfe, countCaption, countMedia,
            countText, countSendPhoto, countSendText]
          omega

/-- An environment whose media edit fails with an unexpected (non-bad-request)
error. -/
def unexpectedMediaEnv : UpdateEnv :=
  { fileExists := fun _ => true,
    editMedia := some (SurfaceError.other "TimeoutError"),
    editCaption1 := some (SurfaceError.badRequest "Bad Request: chat not found"),
    editCaption2 := none,
    editText := none }

/-- Counterexample to C8 as stated.  With a photo-carrying message and a
media edit failing on a non-bad-request error, the next surface operation is
the caption edit (the standalone photo path of lines 84–91), not the
plain-text step the claim says control falls directly to. -/
theorem C8_counterexample :
    unexpectedMediaEnv.editMedia = some (SurfaceError.other "TimeoutError") ∧
    calls (update_menu_message (some ⟨3, true⟩) "txt" (some "m.png") 0 true
      unexpectedMediaEnv).2 =
      [Event.callEditMedia (imagePathOf "m.png") "txt" 0,
       Event.callEditCaption "txt" 0,
       Event.callEditText "txt" true 0] :=
  ⟨rfl, by decide⟩

/-- C8 as amended.  When the media edit fails with an error that is not a
structured surface rejection, `update_menu_message` logs it (`errEditMedia`)
and skips the media-failure caption fallback; control then reaches the
standalone photo check of line 84: with no photo it falls directly to the
plain-text step, but with a photo the standalone caption edit is attempted
next (contrary to the claim's "directly to step 3" in that case). -/
theorem C8_amended_unexpected_media (msg : Message) (t fn : String) (k : Nat)
    (d : Bool) (env : UpdateEnv) (r : String) (hfn : fn ≠ "")
    (hfe : env.fileExists (imagePathOf fn) = true)
    (hm : env.editMedia = some (SurfaceError.other r)) :
    Event.log LogEvent.errEditMedia ∈
      (update_menu_message (some msg) t (some fn) k d env).2 ∧
    (msg.hasPhoto = false →
      calls (update_menu_message (some msg) t (some fn) k d env).2 =
        [Event.callEditMedia (imagePathOf fn) t k, Event.callEditText t d k]) ∧
    (msg.hasPhoto = true →
      (calls (update_menu_message (some msg) t (some fn) k d env).2).take 2 =
        [Event.callEditMedia (imagePathOf fn) t k, Event.callEditCaption t k]) := by
  refine ⟨?_, ?_, ?_⟩
  · simp [update_menu_message, hfn, hfe, hm]
  · intro hph
    rcases ht : env.editText with _ | e
    · simp [update_menu_message, hfn, hfe, hm, hph, updateFromPhotoCheck,
        updateAfterCaption, ht, calls, Event.isCall]
    · rcases e with r' | r' <;>
        simp [update_menu_message, hfn, hfe, hm, hph, updateFromPhotoCheck,
          updateAfterCaption, ht, calls, Event.isCall]
  · intro hph
    rcases hec1 : env.editCaption1 with _ | capErr
    · simp [update_menu_message, hfn, hfe, hm, hph, hec1, updateFromPhotoCheck,
        calls, Event.isCall]
    · rcases capErr with r' | r' <;>
        simp [update_menu_message, hfn, hfe, hm, hph, hec1, updateFromPhotoCheck,
          calls, Event.isCall]

/-- Witness for the amended C8 at a concrete unexpected media failure with a
photo-carrying message. -/
theorem C8_amended_unexpected_media_witness :
    ("m.png" ≠ "" ∧
      unexpectedMediaEnv.fileExists (imagePathOf "m.png") = true ∧
      unexpectedMediaEnv.editMedia = some (SurfaceError.other "TimeoutError")) ∧
    (Event.log LogEvent.errEditMedia ∈
      (update_menu_message (some ⟨3, true⟩) "txt" (some "m.png") 0 true
        unexpectedMediaEnv).2 ∧
     ((⟨3, true⟩ : Message).hasPhoto = false →
      calls (update_menu_message (some ⟨3, true⟩) "txt" (some "m.png") 0 true
        unexpectedMediaEnv).2 =
        [Event.callEditMedia (imagePathOf "m.png") "txt" 0,
         Event.callEditText "txt" true 0]) ∧
     ((⟨3, true⟩ : Message).hasPhoto = true →
      (calls (update_menu_message (some ⟨3, true⟩) "txt" (some "m.png") 0 true
        unexpectedMediaEnv).2).take 2 =
        [Event.callEditMedia (imagePathOf "m.png") "txt" 0,
         Event.callEditCaption "txt" 0])) :=
  ⟨⟨by decide, rfl, rfl⟩,
    C8_amended_unexpected_media ⟨3, true⟩ "txt" "m.png" 0 true
      unexpectedMediaEnv "TimeoutError" (by decide) rfl rfl⟩

/-- C9.  The payload "pay_crypto:nan:1" passes the parse step (Python
`float("nan")` succeeds), yet the handler raises an uncaught `ValueError`
while deriving the subscription description: `int(months)` on line 59 sits
outside the `try` of lines 41–52.  No alert is shown and the gateway is never
reached ("pay_crypto:inf:1" likewise raises, an `OverflowError`).  This
contradicts the claim (and spec) that post-parse processing never crashes. -/
theorem C9_nonfinite_quantity_crash :
    (parsePayload "pay_crypto:nan:1").isSome = true ∧
    (pay_crypto_callback_handler "pay_crypto:nan:1" serviceEnv).events = [] ∧
    (pay_crypto_callback_handler "pay_crypto:nan:1" serviceEnv).raised =
      some PyError.valueError ∧
    (parsePayload "pay_crypto:inf:1").isSome = true ∧
    (pay_crypto_callback_handler "pay_crypto:inf:1" serviceEnv).raised =
      some PyError.overflowError :=
  ⟨by decide, by decide, by decide, by decide, by decide⟩

/-- Counterexample to C10 as stated.  "pay_crypto:nan:5" is not rejected by
the parse (so by the claim the handler should proceed and pass the fields to
the gateway's invoice creation), yet the gateway call is never made: the
handler raises an uncaught `ValueError` first, its event list being empty. -/
theorem C10_counterexample :
    (parsePayload "pay_crypto:nan:5").isSome = true ∧
    badShape "pay_crypto:nan:5" = false ∧
    (pay_crypto_callback_handler "pay_crypto:nan:5" serviceEnv).events = [] ∧
    (pay_crypto_callback_handler "pay_crypto:nan:5" serviceEnv).raised =
      some PyError.valueError :=
  ⟨by decide, by decide, by decide, by decide⟩

/-- The parse fails exactly on payloads whose mode-tag split fails or whose
first or second field is missing or unparseable as a float. -/
theorem parse_none_iff_badShape (data : String) :
    (parsePayload data).isNone = badShape data := by
  rcases h : splitOnce data ':' with _ | ⟨a, tail⟩
  · simp [parsePayload, badShape, h]
  · rcases tail with _ | ⟨b, tail2⟩
    · simp [parsePayload, badShape, h]
    · rcases tail2 with _ | ⟨c, rest⟩
      · rcases hsp : strSplit b ':' with _ | ⟨p0, rest0⟩
        · simp [parsePayload, badShape, h, hsp]
        · rcases hf0 : pyFloat? p0 with _ | m0
          · simp [parsePayload, badShape, h, hsp, hf0]
          · rcases rest0 with _ | ⟨p1, rest1⟩
            · simp [parsePayload, badShape, h, hsp, hf0]
            · rcases hf1 : pyFloat? p1 with _ | m1 <;>
                simp [parsePayload, badShape, h, hsp, hf0, hf1]
      · simp [parsePayload, badShape, h]

/-- Does a string consist of ASCII characters only? -/
def asciiOnly (s : String) : Bool := s.toList.all fun c => c.toNat < 128

/-- C10 as amended, for ASCII payloads (CPython additionally accepts
non-ASCII decimal digits and Unicode spaces in `float()`, which the embedding
does not model; the `asciiOnly` hypothesis scopes the statement to the
fragment where the float model matches CPython exactly, including PEP 515
underscores, overflow to infinity and rounding to zero).  With the guards
passing: the parse rejects exactly the payloads whose first or second
colon-separated field after the mode-tag is missing or not parseable as a
float, and rejection produces the retry alert and nothing else; every parsed
payload whose quantity is finite — or whose sale mode is "traffic", in which
case the description needs no `int()` — reaches the gateway's
invoice-creation call with its quantity and price passed through unvalidated
(zero, negative, or any value), any fields beyond the third having been
ignored by the parse; a third field other than "traffic" (for example
"bogus") selects the subscription description; and a non-finite quantity
(nan, or an overflowing value such as 1e400) outside traffic mode raises
before any gateway call, with no alert.  (The claim's unconditional "for
every other payload it proceeds" fails for those non-finite quantities.) -/
theorem C10_amended_parse_boundary (data : String) (env : PayEnv)
    (ha : asciiOnly data = true)
    (h1 : env.i18nAvailable = true) (h2 : env.hasMessage = true)
    (h3 : env.serviceConfigured = true) :
    ((parsePayload data).isNone = badShape data) ∧
    (parsePayload data = none →
      (pay_crypto_callback_handler data env).events =
        [PayEvent.answerAlert "error_try_again"] ∧
      (pay_crypto_callback_handler data env).raised = none) ∧
    (∀ p, parsePayload data = some p →
      (p.saleMode = "traffic" ∨ p.months.isFinite = true) →
      ∃ de, PayEvent.createInvoice env.userId p.months p.price de p.saleMode ∈
        (pay_crypto_callback_handler data env).events) ∧
    (∀ p mi, parsePayload data = some p → p.saleMode ≠ "traffic" →
      pyIntOf p.months = Except.ok mi →
      PayEvent.createInvoice env.userId p.months p.price
        (get_text "payment_description_subscription" [intStr mi]) p.saleMode ∈
        (pay_crypto_callback_handler data env).events) ∧
    (∀ p, parsePayload data = some p → p.saleMode ≠ "traffic" →
      p.months.isFinite = false →
      (pay_crypto_callback_handler data env).raised.isSome = true ∧
      (pay_crypto_callback_handler data env).events = []) := by
  refine ⟨parse_none_iff_badShape data, ?_, ?_, ?_, ?_⟩
  · intro hp
    exact ⟨by simp [pay_crypto_callback_handler, h1, h2, h3, hp],
      by simp [pay_crypto_callback_handler, h1, h2, h3, hp]⟩
  · intro p hp hor
    have hd : ∃ de, paymentDescription p.saleMode p.months (humanValue p.months) =
        Except.ok de := by
      rcases hor with hsm | hfin
      · refine ⟨get_text "payment_description_traffic" [humanValue p.months], ?_⟩
        simp [paymentDescription, hsm]
      · by_cases hsm : (p.saleMode == "traffic") = true
        · refine ⟨get_text "payment_description_traffic" [humanValue p.months], ?_⟩
          simp [paymentDescription, hsm]
        · rcases hm : p.months with ⟨n, pw⟩ | b
          · refine ⟨get_text "payment_description_subscription"
              [intStr (Int.tdiv n ((10 : Int) ^ pw))], ?_⟩
            simp [paymentDescription, hsm, hm, pyIntOf]
          · rw [hm] at hfin; simp [PyFloat.isFinite] at hfin
          · rw [hm] at hfin; simp [PyFloat.isFinite] at hfin
    obtain ⟨de, hd⟩ := hd
    refine ⟨de, ?_⟩
    rcases hu : env.invoiceUrl with _ | url
    · simp [pay_crypto_callback_handler, h1, h2, h3, hp, hd, hu]
    · rcases hmi : pyIntOf p.months with e | mi
      · simp [pay_crypto_callback_handler, h1, h2, h3, hp, hd, hu, hmi]
      · rcases hru : env.renderUpdateRaises <;>
          simp [pay_crypto_callback_handler, h1, h2, h3, hp, hd, hu, hmi, hru]
  · intro p mi hp hsm hmi
    have hsm' : (p.saleMode == "traffic") = false := by
      simp [hsm]
    have hd : paymentDescription p.saleMode p.months (humanValue p.months) =
        Except.ok (get_text "payment_description_subscription" [intStr mi]) := by
      simp [paymentDescription, hsm', hmi]
    rcases hu : env.invoiceUrl with _ | url
    · simp [pay_crypto_callback_handler, h1, h2, h3, hp, hd, hu]
    · rcases hru : env.renderUpdateRaises <;>
        simp [pay_crypto_callback_handler, h1, h2, h3, hp, hd, hu, hmi, hru]
  · intro p hp hsm hnf
    have hsm' : (p.saleMode == "traffic") = false := by
      simp [hsm]
    have hd : ∃ er, paymentDescription p.saleMode p.months (humanValue p.months) =
        Except.error er := by
      rcases hm : p.months with ⟨n, pw⟩ | b
      · rw [hm] at hnf; simp [PyFloat.isFinite] at hnf
      · exact ⟨PyError.overflowError, by simp [paymentDescription, hsm', hm, pyIntOf]⟩
      · exact ⟨PyError.valueError, by simp [paymentDescription, hsm', hm, pyIntOf]⟩
    obtain ⟨er, hd⟩ := hd
    constructor
    · simp [pay_crypto_callback_handler, h1, h2, h3, hp, hd]
    · simp [pay_crypto_callback_handler, h1, h2, h3, hp, hd]

/-- Witness for the amended C10: the payload "pay_crypto:-2:0:bogus:extra"
parses to quantity -2, price 0, sale mode "bogus" (the fifth field ignored)
and reaches the gateway with those values and the subscription description. -/
theorem C10_amended_parse_boundary_witness :
    (asciiOnly "pay_crypto:-2:0:bogus:extra" = true ∧
      serviceEnv.i18nAvailable = true ∧ serviceEnv.hasMessage = true ∧
      serviceEnv.serviceConfigured = true ∧
      parsePayload "pay_crypto:-2:0:bogus:extra" =
        some ⟨PyFloat.finite (-2) 0, PyFloat.finite 0 0, "bogus"⟩ ∧
      pyIntOf (PyFloat.finite (-2) 0) = Except.ok (-2)) ∧
    PayEvent.createInvoice serviceEnv.userId (PyFloat.finite (-2) 0)
      (PyFloat.finite 0 0)
      (get_text "payment_description_subscription" [intStr (-2)]) "bogus" ∈
      (pay_crypto_callback_handler "pay_crypto:-2:0:bogus:extra" serviceEnv).events :=
  ⟨⟨by decide, rfl, rfl, rfl, by decide, rfl⟩,
    (C10_amended_parse_boundary "pay_crypto:-2:0:bogus:extra" serviceEnv
      (by decide) rfl rfl rfl).2.2.2.1
      ⟨PyFloat.finite (-2) 0, PyFloat.finite 0 0, "bogus"⟩
      (-2) (by decide) (by decide) rfl⟩

/-- Boundary behavior of the float model at the PEP 515 underscore and
overflow cases: "1_0" parses to 10 and "pay_crypto:1_0:5" reaches the
gateway; "1e400" parses to the positive infinity, so "pay_crypto:1e400:5"
raises an `OverflowError` at `int(months)` before any gateway call; "1e-400"
rounds to zero.  These match CPython `float()` at the same inputs. -/
theorem pyFloat_boundary_behavior :
    pyFloat? "1_0" = some (PyFloat.finite 10 0) ∧
    pyFloat? "1e400" = some (PyFloat.inf true) ∧
    pyFloat? "1e-400" = some (PyFloat.finite 0 0) ∧
    PayEvent.createInvoice serviceEnv.userId (PyFloat.finite 10 0)
      (PyFloat.finite 5 0)
      (get_text "payment_description_subscription" [intStr 10]) "subscription" ∈
      (pay_crypto_callback_handler "pay_crypto:1_0:5" serviceEnv).events ∧
    (pay_crypto_callback_handler "pay_crypto:1e400:5" serviceEnv).events = [] ∧
    (pay_crypto_callback_handler "pay_crypto:1e400:5" serviceEnv).raised =
      some PyError.overflowError :=
  ⟨by decide, by decide, by decide, by decide, by decide, by decide⟩

end RemnaShop
